import Mathlib

/-!
Verification development for the `futurecities` repository.

The repository renders a procedurally streamed 3D wireframe cityscape.
The definitions below are a shallow embedding of the relevant source code:

* `src/App.tsx` — JSON validation of generated landscapes and clusters
  (`isValidBuildingElement`, `generateNewLandscape`, `generateBuildingCluster`);
* `src/components/LogoSpinner.tsx` (the `ThreeCityscape` component) —
  geometry building (`createOrUpdateLineSegments`), the per-frame streaming
  controller (`animate`), the landscape reconcile effect, the snapshot
  capture handler, and the zoom/FOV input handlers.

Machine numbers are modelled as `ℚ` (the source uses JS doubles but every
constant and operation relevant to the claims is exact decimal arithmetic).
Stateful code is modelled as explicit state passing; the asynchronous
cluster batches are modelled as a small-step transition system.
-/

set_option maxHeartbeats 1000000

/-! ## Basic data model (`src/App.tsx` interfaces) -/

/-- A 3D vector (`THREE.Vector3` restricted to the operations the code uses). -/
structure Vec3 where
  x : ℚ
  y : ℚ
  z : ℚ
deriving DecidableEq, Repr

/-- Squared length, as in `THREE.Vector3.lengthSq`. -/
def Vec3.lengthSq (v : Vec3) : ℚ := v.x * v.x + v.y * v.y + v.z * v.z

/-- Squared distance, as in `THREE.Vector3.distanceToSquared`. -/
def Vec3.distSq (a b : Vec3) : ℚ :=
  (a.x - b.x) * (a.x - b.x) + (a.y - b.y) * (a.y - b.y) + (a.z - b.z) * (a.z - b.z)

/-- `v.clone().addScaledVector(w, s)`. -/
def Vec3.addScaled (v w : Vec3) (s : ℚ) : Vec3 :=
  ⟨v.x + s * w.x, v.y + s * w.y, v.z + s * w.z⟩

/-- `shape` field of `CityElementData` (`'box' | 'cylinder'`). -/
inductive Shape where
  | box
  | cylinder
deriving DecidableEq, Repr

/-- `dimensions` field of `CityElementData`: `height` is non-optional in the
TS interface; `width`, `depth`, `radius` are optional. -/
structure Dimensions where
  height : ℚ
  width : Option ℚ
  depth : Option ℚ
  radius : Option ℚ
deriving DecidableEq, Repr

/-- `CityElementData` from `src/App.tsx` (the `type` field is the constant
string `'building'` and is omitted). -/
structure CityElementData where
  id : String
  shape : Shape
  position : Vec3
  dimensions : Dimensions
  orientationY : Option ℚ
deriving DecidableEq, Repr

/-- `LandscapeData` from `src/App.tsx`. -/
structure Landscape where
  topColor : String
  horizonColor : String
  buildings : List CityElementData
deriving DecidableEq, Repr

/-! ## Constants from `LogoSpinner.tsx` -/

def MIN_FOV : ℚ := 30
def MAX_FOV : ℚ := 90
def DEFAULT_FOV : ℚ := 60
def FOV_STEP : ℚ := 2
def GENERATION_TRIGGER_DISTANCE : ℚ := 400
def CLUSTER_SPAWN_AHEAD_OFFSET : ℚ := 600
def MIN_DISTANCE_BETWEEN_TRIGGER_POINTS : ℚ := 300
def MAX_ACTIVE_CLUSTER_REQUESTS : ℤ := 1
def FADE_IN_DURATION : ℚ := 35 / 100

/-! ## Zoom / FOV input handling

`zoomCameraByFactor` (imperative handle), `handleMouseWheel` and the pinch
branch of `touchMoveHandler`, all in `LogoSpinner.tsx`.  Every one of them
writes `cameraFovRef.current` through the same clamp
`Math.max(MIN_FOV, Math.min(MAX_FOV, …))`. -/

/-- The clamp `Math.max(MIN_FOV, Math.min(MAX_FOV, f))`. -/
def clampFov (f : ℚ) : ℚ := max MIN_FOV (min MAX_FOV f)

/-- `Math.sign` on rationals. -/
def qsign (q : ℚ) : ℚ := if 0 < q then 1 else if q < 0 then -1 else 0

/-- `handleMouseWheel`: `newFov = fov + Math.sign(deltaY) * FOV_STEP`, clamped. -/
def handleMouseWheel (fov deltaY : ℚ) : ℚ :=
  clampFov (fov + qsign deltaY * FOV_STEP)

/-- `zoomCameraByFactor`: `fovChange = DEFAULT_FOV * factor`, clamped add. -/
def zoomCameraByFactor (fov factor : ℚ) : ℚ :=
  clampFov (fov + DEFAULT_FOV * factor)

/-- One zoom-relevant input event. `pinchStart` is a two-finger
`touchstart` (stores distance and the FOV at pinch start), `pinchMove` a
two-finger `touchmove`, `pinchEnd` the `touchend`/one-finger case which
clears the stored pinch state. -/
inductive ZoomEvent where
  | wheel (deltaY : ℚ)
  | pinchStart (dist : ℚ)
  | pinchMove (dist : ℚ)
  | pinchEnd
  | zoomCmd (factor : ℚ)
deriving DecidableEq, Repr

/-- The zoom-relevant state: `cameraFovRef` plus
`initialPinchDistanceRef`/`initialFovAtPinchStartRef`. -/
structure ZoomState where
  fov : ℚ
  pinch : Option (ℚ × ℚ)
deriving DecidableEq, Repr

/-- One input event applied to the zoom state, following the handlers in
`LogoSpinner.tsx` (the pinch-move branch returns unchanged when the stored
initial distance is `0`, mirroring the division-by-zero guard). -/
def zoomStep (s : ZoomState) : ZoomEvent → ZoomState
  | .wheel d => { s with fov := handleMouseWheel s.fov d }
  | .pinchStart dist => { s with pinch := some (dist, s.fov) }
  | .pinchMove dist =>
      match s.pinch with
      | some (d0, f0) =>
          if d0 = 0 then s
          else { s with fov := clampFov (f0 * (dist / d0)) }
      | none => s
  | .pinchEnd => { s with pinch := none }
  | .zoomCmd factor => { s with fov := zoomCameraByFactor s.fov factor }

/-- Initial zoom state: `DEFAULT_FOV`, no pinch in progress. -/
def initZoomState : ZoomState := ⟨DEFAULT_FOV, none⟩

/-- Run a whole sequence of zoom inputs. -/
def runZoom (evs : List ZoomEvent) : ZoomState :=
  evs.foldl zoomStep initZoomState

/-! ## Geometry building (`createOrUpdateLineSegments`)

The source builds wireframe geometry from an element description.  The
branch conditions use JS truthiness on the optional dimension fields
(`elementData.dimensions.width && …`), so `0` and missing both select the
fallback cube. -/

/-- The geometry attached to a `LineSegments` object: box edges, 16-sided
cylinder edges, or the defensive fallback 10×10×10 cube. -/
inductive Geom where
  | boxEdges (w h d : ℚ)
  | cylEdges (r h : ℚ)
  | fallbackBox
deriving DecidableEq, Repr

/-- JS truthiness of an optional numeric field. -/
def truthyOpt : Option ℚ → Bool
  | some q => decide (q ≠ 0)
  | none => false

/-- Geometry selection in `createOrUpdateLineSegments`. -/
def buildGeom (e : CityElementData) : Geom :=
  if e.shape = Shape.box ∧ truthyOpt e.dimensions.width
      ∧ e.dimensions.height ≠ 0 ∧ truthyOpt e.dimensions.depth then
    Geom.boxEdges (e.dimensions.width.getD 0) e.dimensions.height (e.dimensions.depth.getD 0)
  else if e.shape = Shape.cylinder ∧ truthyOpt e.dimensions.radius
      ∧ e.dimensions.height ≠ 0 then
    Geom.cylEdges (e.dimensions.radius.getD 0) e.dimensions.height
  else
    Geom.fallbackBox

/-- A `THREE.LineSegments` realizing one building (a `WorldElement`).
`objId` is the identity of the JS object (used to distinguish in-place
mutation from disposal-and-recreation); `geomVersion` counts how many times
the attached geometry has been replaced.  The remaining fields embed the
object's position, `rotation.y`, the material's `opacity`/`transparent`
flags, and the `userData` metadata. -/
structure WorldElement where
  objId : ℕ
  id : String
  geom : Geom
  geomVersion : ℕ
  pos : Vec3
  rotY : ℚ
  height : ℚ
  opacity : ℚ
  transparent : Bool
  isDynamic : Bool
  isAppearing : Bool
  creationTime : ℚ
deriving DecidableEq, Repr

/-- `createOrUpdateLineSegments(elementData, undefined, isDynamicFadeIn)`:
the creation path.  A fresh object is built; its vertical center is
`position.y + height/2`; for a dynamic fade-in element the material starts
at opacity `0.01`, transparent, tagged appearing with the clock time. -/
def createSegments (e : CityElementData) (dynFade : Bool) (now : ℚ) (objId : ℕ) :
    WorldElement :=
  { objId := objId
    id := e.id
    geom := buildGeom e
    geomVersion := 0
    pos := ⟨e.position.x, e.position.y + e.dimensions.height / 2, e.position.z⟩
    rotY := e.orientationY.getD 0
    height := e.dimensions.height
    opacity := if dynFade then 1 / 100 else 1
    transparent := dynFade
    isDynamic := dynFade
    isAppearing := dynFade
    creationTime := if dynFade then now else 0 }

/-- `createOrUpdateLineSegments(elementData, existingSegments, isDynamicFadeIn)`:
the update path.  The existing object's geometry is disposed and replaced
(`geomVersion` increments), the material is refreshed; position, rotation
and `userData.id` are NOT touched here.  In the non-fade branch the
`userData` flags are also left untouched. -/
def updateSegments (e : CityElementData) (old : WorldElement) (dynFade : Bool) (now : ℚ) :
    WorldElement :=
  { old with
    geom := buildGeom e
    geomVersion := old.geomVersion + 1
    opacity := if dynFade then 1 / 100 else 1
    transparent := dynFade
    isDynamic := if dynFade then true else old.isDynamic
    isAppearing := if dynFade then true else old.isAppearing
    creationTime := if dynFade then now else old.creationTime }

/-- The update branch of the landscape reconcile effect: after
`createOrUpdateLineSegments(b_data, element, false)` the effect re-sets the
element's position, rotation (only when `orientationY` is present), the
`userData.height`, and forces the initial-element flags. -/
def reconcileUpdateElement (b : CityElementData) (el : WorldElement) : WorldElement :=
  let el1 := updateSegments b el false 0
  { el1 with
    pos := ⟨b.position.x, b.position.y + b.dimensions.height / 2, b.position.z⟩
    rotY := match b.orientationY with
            | some r => r
            | none => el1.rotY
    height := b.dimensions.height
    isDynamic := false
    isAppearing := false }

/-! ## Streaming-controller state

The refs of `ThreeCityscape` that the streaming logic reads and writes:
the city group's children, the dynamic-id set, the trigger points, the
in-flight counter and the cluster-id counter.  `inflight` additionally
records the (not directly observable) set of batches whose
`Promise.allSettled` has not yet settled, tagged by the value of the
cluster-id counter when the batch was issued; `nextObjId` is a fresh-name
supply for JS object identities. -/
structure SceneState where
  group : List WorldElement
  dyn : List String
  pts : List Vec3
  counter : ℤ
  idCtr : ℕ
  inflight : List ℕ
  nextObjId : ℕ
deriving DecidableEq, Repr

/-- The state at mount: all refs empty / zero. -/
def initSceneState : SceneState :=
  { group := [], dyn := [], pts := [], counter := 0, idCtr := 0, inflight := [], nextObjId := 0 }

/-! ## Per-frame cluster-generation trigger (`animate`, LogoSpinner.tsx) -/

/-- `nextClusterPotentialCenter` / `baseSpawnPointAhead`: the camera
position plus the forward direction scaled by `CLUSTER_SPAWN_AHEAD_OFFSET`
(the source computes this same expression twice). -/
def candidateCenter (pos fwd : Vec3) : Vec3 :=
  pos.addScaled fwd CLUSTER_SPAWN_AHEAD_OFFSET

/-- The per-frame trigger decision: with no recorded trigger points, fire
once `cameraPosition.lengthSq()` exceeds `(GENERATION_TRIGGER_DISTANCE*0.5)²`;
otherwise fire only if the candidate center's squared distance to every
recorded trigger point is at least `MIN_DISTANCE_BETWEEN_TRIGGER_POINTS²`
(the source breaks out as soon as one is strictly below). -/
def shouldTrigger (pts : List Vec3) (pos fwd : Vec3) : Bool :=
  if pts.isEmpty then
    decide ((GENERATION_TRIGGER_DISTANCE * (1/2)) * (GENERATION_TRIGGER_DISTANCE * (1/2))
      < pos.lengthSq)
  else
    pts.all fun p =>
      decide (MIN_DISTANCE_BETWEEN_TRIGGER_POINTS * MIN_DISTANCE_BETWEEN_TRIGGER_POINTS
        ≤ (candidateCenter pos fwd).distSq p)

/-! ## Applying settled cluster batches (`Promise.allSettled` handler) -/

/-- The mutation `b_data.position.x += center.x; b_data.position.z += center.z`
performed on each returned cluster element (the `y` component is left
untouched). -/
def offsetByCenter (center : Vec3) (b : CityElementData) : CityElementData :=
  { b with position := ⟨b.position.x + center.x, b.position.y, b.position.z + center.z⟩ }

/-- `dynamicallyGeneratedBuildingsRef.current.add(id)` — a JS `Set` add. -/
def addDynId (dyn : List String) (i : String) : List String :=
  if i ∈ dyn then dyn else dyn ++ [i]

/-- The fulfilled-result branch of the `Promise.allSettled` handler: each
returned element is offset by the sub-cluster's target world center, built
with fade-in enabled (`createOrUpdateLineSegments(b_data, undefined, true)`),
added to the city group, and its id recorded in the dynamic-id set. -/
def applyOneCluster (now : ℚ) (center : Vec3) (elems : List CityElementData)
    (st : SceneState) : SceneState :=
  elems.foldl (fun s b =>
    let b2 := offsetByCenter center b
    { s with group := s.group ++ [createSegments b2 true now s.nextObjId],
             dyn := addDynId s.dyn b2.id,
             nextObjId := s.nextObjId + 1 }) st

/-- Processing the whole `Promise.allSettled` result list: `none` stands
for a rejected promise or a fulfilled `null` (both contribute nothing);
`some (center, elems)` for a fulfilled non-null sub-cluster result with its
target center. -/
def applySettled (now : ℚ) :
    List (Option (Vec3 × List CityElementData)) → SceneState → SceneState
  | [], st => st
  | none :: rs, st => applySettled now rs st
  | some (c, elems) :: rs, st => applySettled now rs (applyOneCluster now c elems st)

/-- A whole batch settling: apply every sub-cluster outcome, then the
`.finally` decrement of `activeClusterRequestsRef`, and the batch leaves
the in-flight set. -/
def settleBatch (now : ℚ) (b : ℕ) (results : List (Option (Vec3 × List CityElementData)))
    (st : SceneState) : SceneState :=
  let st1 := applySettled now results st
  { st1 with counter := st1.counter - 1, inflight := st1.inflight.erase b }

/-! ## The landscape reconcile effect (second `useEffect`, LogoSpinner.tsx) -/

/-- `group.children.find(c => c.userData.id === b_data.id)` followed by the
in-place update: replaces the first element with matching id, returns
`none` when no element matches. -/
def updateFirstById (b : CityElementData) : List WorldElement → Option (List WorldElement)
  | [] => none
  | e :: rest =>
      if e.id = b.id then some (reconcileUpdateElement b e :: rest)
      else
        match updateFirstById b rest with
        | some r => some (e :: r)
        | none => none

/-- The `landscapeData.buildings.forEach` loop: skip buildings whose id is
in the dynamic set; update the first matching group child in place, or
append a freshly created static element.  Returns the new group, the next
fresh object id, the number of in-place updates and the number of
additions. -/
def processBuildings (dyn : List String) :
    List CityElementData → List WorldElement → ℕ → ℕ → ℕ →
    List WorldElement × ℕ × ℕ × ℕ
  | [], g, nid, upd, add => (g, nid, upd, add)
  | b :: bs, g, nid, upd, add =>
      if b.id ∈ dyn then processBuildings dyn bs g nid upd add
      else
        match updateFirstById b g with
        | some g2 => processBuildings dyn bs g2 nid (upd + 1) add
        | none => processBuildings dyn bs (g ++ [createSegments b false 0 nid]) (nid + 1) upd (add + 1)

/-- Bookkeeping of one reconcile run. `geomDisposals` counts every
`geometry.dispose()` on geometry owned by a group element (the update path
disposes the old geometry; removing an element disposes its geometry);
`geomCreations` counts every new geometry attached to a group element
(update path and newly created elements); `elemsRemoved`/`elemsAdded`
count elements removed from / added to the city group. -/
structure ReconcileStats where
  geomDisposals : ℕ
  geomCreations : ℕ
  elemsRemoved : ℕ
  elemsAdded : ℕ
deriving DecidableEq, Repr

/-- The landscape effect, embedding the whole `useEffect` body that runs
when `landscapeData` changes:

1. only when the dynamic-id set is non-empty: dispose and remove every
   group child whose id is in the set, clear the set, clear the trigger
   points, and zero the in-flight and cluster-id counters;
2. if the landscape is `null` or its building list empty: dispose and
   remove every remaining child;
3. otherwise update-or-add each building and finally dispose and remove
   the non-dynamic children whose ids disappeared. -/
def applyLandscape (st : SceneState) (land : Option Landscape) :
    SceneState × ReconcileStats :=
  let doClear := !st.dyn.isEmpty
  let g1 := if doClear then st.group.filter (fun e => decide (e.id ∉ st.dyn)) else st.group
  let removedDyn := if doClear then (st.group.filter (fun e => decide (e.id ∈ st.dyn))).length else 0
  let dyn1 : List String := if doClear then [] else st.dyn
  let pts1 := if doClear then [] else st.pts
  let counter1 : ℤ := if doClear then 0 else st.counter
  let idCtr1 := if doClear then 0 else st.idCtr
  match land with
  | none =>
      ({ st with group := [], dyn := dyn1, pts := pts1, counter := counter1, idCtr := idCtr1 },
       { geomDisposals := removedDyn + g1.length, geomCreations := 0,
         elemsRemoved := removedDyn + g1.length, elemsAdded := 0 })
  | some L =>
      if L.buildings.isEmpty then
        ({ st with group := [], dyn := dyn1, pts := pts1, counter := counter1, idCtr := idCtr1 },
         { geomDisposals := removedDyn + g1.length, geomCreations := 0,
           elemsRemoved := removedDyn + g1.length, elemsAdded := 0 })
      else
        let newIds := L.buildings.map (fun b => b.id)
        let pr := processBuildings dyn1 L.buildings g1 st.nextObjId 0 0
        let g2 := pr.1
        let nid2 := pr.2.1
        let upd := pr.2.2.1
        let add := pr.2.2.2
        let g3 := g2.filter (fun e => e.isDynamic || decide (e.id ∈ newIds))
        let removedFinal := g2.length - g3.length
        ({ st with group := g3, dyn := dyn1, pts := pts1, counter := counter1,
                   idCtr := idCtr1, nextObjId := nid2 },
         { geomDisposals := removedDyn + upd + removedFinal,
           geomCreations := upd + add,
           elemsRemoved := removedDyn + removedFinal,
           elemsAdded := add })

/-! ## The streaming transition system

One step is a frame that fires the generation trigger, a batch settling
(the `allSettled` continuation running), or the landscape effect running
because a new Landscape arrived.  The camera position and forward
direction are step parameters: the render loop can steer the camera to any
position over time, and only the trigger guard constrains them.  When
`safe = true`, the landscape effect may only run while no batch is in
flight (the restriction whose absence claim C1 is about). -/
inductive Step (safe : Bool) : SceneState → SceneState → Prop
  | trigger (st : SceneState) (pos fwd : Vec3) (n : ℕ)
      (htrig : shouldTrigger st.pts pos fwd = true)
      (hcap : st.counter < MAX_ACTIVE_CLUSTER_REQUESTS)
      (hn1 : 1 ≤ n) (hn5 : n ≤ 5) :
      Step safe st
        { st with counter := st.counter + 1,
                  pts := st.pts ++ [candidateCenter pos fwd],
                  inflight := st.inflight ++ [st.idCtr],
                  idCtr := st.idCtr + n }
  | settle (st : SceneState) (now : ℚ) (b : ℕ)
      (results : List (Option (Vec3 × List CityElementData)))
      (hb : b ∈ st.inflight) :
      Step safe st (settleBatch now b results st)
  | regen (st : SceneState) (land : Option Landscape)
      (hsafe : safe = true → st.inflight = []) :
      Step safe st (applyLandscape st land).1

/-- States reachable from the mount state, landscape regeneration allowed
at any time (the actual behaviour of the source). -/
def Reachable (s : SceneState) : Prop :=
  Relation.ReflTransGen (Step false) initSceneState s

/-- States reachable when every landscape regeneration happens while no
batch is in flight. -/
def SafeReachable (s : SceneState) : Prop :=
  Relation.ReflTransGen (Step true) initSceneState s

/-! ## Fade-in aging (per-frame loop in `animate`) -/

/-- One frame of fade-in aging applied to one group child at clock time
`now`: only elements with both `isDynamicallyGenerated` and `isAppearing`
set are touched; their opacity becomes
`min(1, (now - creationTime) / FADE_IN_DURATION)` and the appearing flag is
cleared exactly when that value reaches `1`. -/
def ageElement (now : ℚ) (e : WorldElement) : WorldElement :=
  if e.isDynamic && e.isAppearing then
    let newOpacity := min 1 ((now - e.creationTime) / FADE_IN_DURATION)
    { e with opacity := newOpacity,
             isAppearing := if 1 ≤ newOpacity then false else e.isAppearing }
  else e

/-- The whole aging pass over the city group. -/
def ageGroup (now : ℚ) (g : List WorldElement) : List WorldElement :=
  g.map (ageElement now)

/-! ## Snapshot capture (`handleCanvasClickAndCapture`) -/

/-- Outcome of one invocation of the capture handler.  `flagAfter` is
`isCapturingRef.current` when the invocation's try/finally has finished,
`notified` whether `onScreenshotInitiated` was called, `renderPasses` how
many off-screen render passes were issued, `raised` whether the render
phase threw. -/
structure CaptureResult where
  flagAfter : Bool
  notified : Bool
  renderPasses : ℕ
  raised : Bool
deriving DecidableEq, Repr

/-- The control flow of `handleCanvasClickAndCapture` up to the end of its
`finally` block.  `isCapturing` is the flag on entry; `throwAt = some i`
means the render phase throws while issuing pass `i` (pass 0 = the
city-color pass, pass 1 = the white pass), `none` means both passes
complete.  The guard `if (isCapturingRef.current) return;` precedes both
the `onScreenshotInitiated()` call and the render passes, and the
`finally` block clears the flag on every non-blocked path. -/
def handleCapture (isCapturing : Bool) (throwAt : Option (Fin 2)) : CaptureResult :=
  if isCapturing then
    { flagAfter := true, notified := false, renderPasses := 0, raised := false }
  else
    match throwAt with
    | none => { flagAfter := false, notified := true, renderPasses := 2, raised := false }
    | some i => { flagAfter := false, notified := true, renderPasses := i.val, raised := true }

/-! ## JSON parsing and validation (`src/App.tsx`) -/

/-- A parsed JSON value (what `JSON.parse` yields). -/
inductive JValue where
  | jnull
  | jbool (b : Bool)
  | jnum (q : ℚ)
  | jstr (s : String)
  | jarr (xs : List JValue)
  | jobj (fields : List (String × JValue))

/-- Property access `v.k`: `some` when `v` is an object with field `k`
(`JSON.parse` keeps keys unique, the first match is taken), `none` when the
access yields `undefined`. -/
def getField : JValue → String → Option JValue
  | .jobj fields, k =>
      match fields.find? (fun p => p.1 = k) with
      | some p => some p.2
      | none => none
  | _, _ => none

/-- JS truthiness of a JSON value. -/
def truthyJ : JValue → Bool
  | .jnull => false
  | .jbool b => b
  | .jnum q => decide (q ≠ 0)
  | .jstr s => decide (s ≠ "")
  | .jarr _ => true
  | .jobj _ => true

/-- Does the getter produce a string (JS `typeof v.k === 'string'`)? -/
def isStrField (v : JValue) (k : String) : Bool :=
  match getField v k with
  | some (.jstr _) => true
  | _ => false

/-- Does the getter produce a number, and (when `pos`) is it positive? -/
def isNumField (v : JValue) (k : String) : Bool :=
  match getField v k with
  | some (.jnum _) => true
  | _ => false

/-- The numeric value of a field, `0` when absent or not a number. -/
def numField (v : JValue) (k : String) : ℚ :=
  match getField v k with
  | some (.jnum q) => q
  | _ => 0

/-- `isValidBuildingElement` from `src/App.tsx`, check for check.  The JS
`typeof el === 'object' && el !== null` test admits arrays as well, but an
array has no string-keyed properties, so the subsequent `el.id` check
rejects it; the embedding reaches the same verdict by requiring an
object.  The JS `el.id.trim() !== ''` test holds exactly when the id
contains some non-whitespace character, which is how it is embedded. -/
def isValidBuildingElement (el : JValue) : Bool :=
  match el with
  | .jobj _ =>
      (match getField el "id" with
       | some (.jstr s) => s.toList.any (fun c => !c.isWhitespace)
       | _ => false)
      && (match getField el "type" with
          | some (.jstr s) => decide (s = "building")
          | _ => false)
      && (match getField el "shape" with
          | some (.jstr s) => decide (s = "box") || decide (s = "cylinder")
          | _ => false)
      && (match getField el "position" with
          | some p =>
              isNumField p "x" && isNumField p "y" && isNumField p "z"
              && decide (numField p "y" = 0)
              && (match p with
                  | .jobj _ => true
                  | _ => false)
          | none => false)
      && (match getField el "dimensions" with
          | some d =>
              (match d with
               | .jobj _ => true
               | _ => false)
              && isNumField d "height" && decide (0 < numField d "height")
              && (match getField el "shape" with
                  | some (.jstr s) =>
                      if s = "box" then
                        isNumField d "width" && decide (0 < numField d "width")
                        && isNumField d "depth" && decide (0 < numField d "depth")
                      else if s = "cylinder" then
                        isNumField d "radius" && decide (0 < numField d "radius")
                      else true
                  | _ => true)
          | none => false)
      && (match getField el "orientationY" with
          | none => true
          | some (.jnum _) => true
          | some _ => false)
  | _ => false

/-- The acceptance condition inside `generateNewLandscape`'s inner `try`:
`parsedData.sky` truthy, both sky colors strings, `buildings` an array of
25–50 elements, every element passing `isValidBuildingElement`. -/
def landscapeAccept (v : JValue) : Bool :=
  (match getField v "sky" with
   | some sky => truthyJ sky && isStrField sky "topColor" && isStrField sky "horizonColor"
   | none => false)
  && (match getField v "buildings" with
      | some (.jarr bs) =>
          decide (25 ≤ bs.length) && decide (bs.length ≤ 50)
          && bs.all isValidBuildingElement
      | _ => false)

/-- Result of one `generateNewLandscape` run: the `landscapeData` state
set at the end, and whether the user-visible `error` state was set.
`resp = none` models the service call throwing or its text failing to
parse as JSON; both land in the outer `catch`, which sets the error and
`setLandscapeData(null)`. -/
def generateNewLandscape (resp : Option JValue) : Option JValue × Bool :=
  match resp with
  | none => (none, true)
  | some v => if landscapeAccept v then (some v, false) else (none, true)

/-- The spread `{...b, id: clusterIdPrefix + b.id}` applied to each
accepted cluster element. -/
def overrideId (pre : String) (b : JValue) : JValue :=
  match b with
  | .jobj fields =>
      .jobj (fields.map fun p =>
        if p.1 = "id" then
          (p.1, match p.2 with
                | .jstr s => JValue.jstr (pre ++ s)
                | other => other)
        else p)
  | other => other

/-- `generateBuildingCluster`: accepts only an array of 5–8 elements all
passing validation; every other outcome (throw, parse failure, wrong
shape) yields `null`.  On acceptance the element ids get the cluster id
prefix prepended. -/
def generateBuildingCluster (resp : Option JValue) (pre : String) :
    Option (List JValue) :=
  match resp with
  | none => none
  | some v =>
      match v with
      | .jarr bs =>
          if decide (5 ≤ bs.length) && decide (bs.length ≤ 8)
              && bs.all isValidBuildingElement then
            some (bs.map (overrideId pre))
          else none
      | _ => none

/-! ## Derived description of the elements added by one settled sub-cluster -/

/-- The world elements built from one fulfilled sub-cluster result, in
order: element `i` is created from the `i`-th returned element, offset by
the sub-cluster's target center, with fade-in enabled and the `i`-th fresh
object identity. -/
def newDynElems (now : ℚ) (c : Vec3) (nid : ℕ) : List CityElementData → List WorldElement
  | [] => []
  | b :: bs => createSegments (offsetByCenter c b) true now nid :: newDynElems now c (nid + 1) bs

/-! ## Spec-shaped predicates (from the spec's words, for claim C7) -/

/-- The spec's acceptance condition for a `requestLandscape` result: a
`sky` holding two color strings and a `buildings` array of between 25 and
50 elements inclusive, every element passing building validation. -/
def LandscapeWellFormed (v : JValue) : Prop :=
  ∃ sky bs, getField v "sky" = some sky
    ∧ (∃ t, getField sky "topColor" = some (.jstr t))
    ∧ (∃ hz, getField sky "horizonColor" = some (.jstr hz))
    ∧ getField v "buildings" = some (.jarr bs)
    ∧ 25 ≤ bs.length ∧ bs.length ≤ 50
    ∧ ∀ b ∈ bs, isValidBuildingElement b = true

/-- The spec's acceptance condition for a `requestCluster` result: an
array of between 5 and 8 valid elements inclusive. -/
def ClusterWellFormed (v : JValue) : Prop :=
  ∃ bs, v = .jarr bs ∧ 5 ≤ bs.length ∧ bs.length ≤ 8
    ∧ ∀ b ∈ bs, isValidBuildingElement b = true

/-! ## Concrete sample data used by counterexamples and witnesses -/

/-- A well-formed box element, as a cluster response element. -/
def elemA : CityElementData := ⟨"a1", Shape.box, ⟨0, 0, 0⟩, ⟨50, some 10, some 10, none⟩, none⟩

/-- A well-formed box element, as a landscape building. -/
def elemB : CityElementData := ⟨"b1", Shape.box, ⟨0, 0, 0⟩, ⟨20, some 5, some 5, none⟩, none⟩

/-- A one-building landscape. -/
def landB : Landscape := ⟨"#000022", "#000000", [elemB]⟩

/-- State after the first generation trigger fires (camera at
`(0,0,-300)`, azimuth 0, one sub-cluster): one batch in flight. -/
def c1s1 : SceneState := ⟨[], [], [⟨0, 0, -900⟩], 1, 1, [0], 0⟩

/-- The dynamic world element built from `elemA` at target center
`(0,0,-900)`. -/
def dynElemA : WorldElement := createSegments (offsetByCenter ⟨0, 0, -900⟩ elemA) true 1 0

/-- State after the first batch settles successfully with one element. -/
def c1s2 : SceneState := ⟨[dynElemA], ["a1"], [⟨0, 0, -900⟩], 0, 1, [], 1⟩

/-- State after a second trigger fires while dynamic content exists. -/
def c1s3 : SceneState := ⟨[dynElemA], ["a1"], [⟨0, 0, -900⟩, ⟨0, 0, -1500⟩], 1, 2, [1], 1⟩

/-- The static world element built from `elemB` during regeneration. -/
def statElemB : WorldElement := createSegments elemB false 0 1

/-- State after a full landscape regeneration runs while batch 1 is still
in flight: the in-flight counter was reset to 0 although the batch has not
settled. -/
def c1s4 : SceneState := ⟨[statElemB], [], [], 0, 0, [1], 2⟩

/-- State after a third trigger fires post-regeneration: now two batches
(tags 1 and 0) are simultaneously in flight. -/
def c1BadState : SceneState := ⟨[statElemB], [], [⟨0, 0, -1500⟩], 1, 1, [1, 0], 2⟩

/-- A reachable prior state with a recorded trigger point, a non-zero
cluster-id counter, and an empty dynamic-id set (the batch issued at the
trigger point failed entirely). -/
def c3Prior : SceneState := ⟨[], [], [⟨0, 0, -900⟩], 0, 1, [], 0⟩

/-- The scene state produced by merging `landB` into the mount state. -/
def c2First : SceneState := (applyLandscape initSceneState (some landB)).1

/-- A valid building element as a parsed JSON value. -/
def bJson : JValue :=
  .jobj [("id", .jstr "b"), ("type", .jstr "building"), ("shape", .jstr "box"),
    ("position", .jobj [("x", .jnum 0), ("y", .jnum 0), ("z", .jnum 0)]),
    ("dimensions", .jobj [("width", .jnum 10), ("height", .jnum 50), ("depth", .jnum 10)])]

/-- A well-formed parsed landscape response with 25 buildings. -/
def goodLandscapeJson : JValue :=
  .jobj [("sky", .jobj [("topColor", .jstr "#2c003e"), ("horizonColor", .jstr "#ff00cc")]),
    ("buildings", .jarr (List.replicate 25 bJson))]

/-! ## Supporting lemmas -/

lemma clampFov_mem (f : ℚ) : MIN_FOV ≤ clampFov f ∧ clampFov f ≤ MAX_FOV := by
  unfold clampFov MIN_FOV MAX_FOV
  constructor
  · exact le_max_left _ _
  · exact max_le (by norm_num) (min_le_left _ _)

lemma zoomStep_mem (s : ZoomState) (e : ZoomEvent)
    (h : MIN_FOV ≤ s.fov ∧ s.fov ≤ MAX_FOV) :
    MIN_FOV ≤ (zoomStep s e).fov ∧ (zoomStep s e).fov ≤ MAX_FOV := by
  cases e with
  | wheel d => exact clampFov_mem _
  | pinchStart dist => exact h
  | pinchMove dist =>
      unfold zoomStep
      cases hp : s.pinch with
      | none => exact h
      | some p =>
          obtain ⟨d0, f0⟩ := p
          by_cases hd : d0 = 0
          · simp [hd]; exact h
          · simp [hd]; exact clampFov_mem _
  | pinchEnd => exact h
  | zoomCmd factor => exact clampFov_mem _

lemma foldl_zoom_mem (evs : List ZoomEvent) (s : ZoomState)
    (h : MIN_FOV ≤ s.fov ∧ s.fov ≤ MAX_FOV) :
    MIN_FOV ≤ (evs.foldl zoomStep s).fov ∧ (evs.foldl zoomStep s).fov ≤ MAX_FOV := by
  induction evs generalizing s with
  | nil => exact h
  | cons e evs ih => exact ih _ (zoomStep_mem s e h)

lemma ageElement_opacity (now : ℚ) (e : WorldElement)
    (hd : e.isDynamic = true) (ha : e.isAppearing = true) :
    (ageElement now e).opacity = min 1 ((now - e.creationTime) / FADE_IN_DURATION) := by
  simp [ageElement, hd, ha]

lemma ageElement_isDynamic (now : ℚ) (e : WorldElement) :
    (ageElement now e).isDynamic = e.isDynamic := by
  unfold ageElement; split <;> rfl

lemma ageElement_creationTime (now : ℚ) (e : WorldElement) :
    (ageElement now e).creationTime = e.creationTime := by
  unfold ageElement; split <;> rfl

lemma ageElement_of_not_appearing (now : ℚ) (e : WorldElement)
    (h : e.isAppearing = false) : ageElement now e = e := by
  simp [ageElement, h]

/-! ## Claim theorems -/

/-- C6: for every sequence of zoom inputs — mouse-wheel events of any
delta, pinch gestures of any distance ratio, and explicit
`zoomCameraByFactor` commands of any factor (including 100 and -100) — the
target field-of-view lies in [30, 90] degrees after every update. -/
theorem c6_fov_always_clamped (evs : List ZoomEvent) :
    MIN_FOV ≤ (runZoom evs).fov ∧ (runZoom evs).fov ≤ MAX_FOV :=
  foldl_zoom_mem evs initZoomState
    (by constructor <;> norm_num [initZoomState, DEFAULT_FOV, MIN_FOV, MAX_FOV])

/-- C10: every mouse-wheel event changes the target field-of-view by
exactly `FOV_STEP = 2` degrees in the direction of the sign of `deltaY`
(before clamping), regardless of the magnitude of `deltaY`, and an event
with `deltaY = 0` leaves the target field-of-view unchanged. -/
theorem c10_wheel_fixed_step (fov d : ℚ) (h1 : MIN_FOV ≤ fov) (h2 : fov ≤ MAX_FOV) :
    (0 < d → handleMouseWheel fov d = clampFov (fov + FOV_STEP))
    ∧ (d < 0 → handleMouseWheel fov d = clampFov (fov - FOV_STEP))
    ∧ (d = 0 → handleMouseWheel fov d = fov)
    ∧ (∀ d2 : ℚ, qsign d2 = qsign d → handleMouseWheel fov d2 = handleMouseWheel fov d) := by
  refine ⟨?_, ?_, ?_, ?_⟩
  · intro hpos
    simp only [handleMouseWheel, qsign, if_pos hpos]
    norm_num
  · intro hneg
    have hnp : ¬ (0 < d) := by linarith
    simp only [handleMouseWheel, qsign, if_neg hnp, if_pos hneg]
    ring_nf
  · intro hz
    subst hz
    simp only [handleMouseWheel, qsign]
    norm_num [clampFov]
    rw [min_eq_right h2, max_eq_right h1]
  · intro d2 hs
    simp only [handleMouseWheel, hs]

/-- C10 witness: at `fov = 60` (in range) a `deltaY = 0` wheel event
leaves the field-of-view unchanged. -/
theorem c10_wheel_fixed_step_witness :
    MIN_FOV ≤ (60 : ℚ) ∧ (60 : ℚ) ≤ MAX_FOV ∧ handleMouseWheel 60 0 = 60 :=
  ⟨by norm_num [MIN_FOV], by norm_num [MAX_FOV],
   (c10_wheel_fixed_step 60 0 (by norm_num [MIN_FOV]) (by norm_num [MAX_FOV])).2.2.1 rfl⟩

/-- C8: invoking the snapshot capture while another capture is in progress
is a no-op — it returns before `onScreenshotInitiated` is called and
before any render pass is started — and on every non-blocked invocation
the capture-in-progress flag is cleared by the `finally` block even when
the render phase throws. -/
theorem c8_capture_reentrancy (t : Option (Fin 2)) :
    handleCapture true t =
      { flagAfter := true, notified := false, renderPasses := 0, raised := false }
    ∧ (handleCapture false t).flagAfter = false
    ∧ (handleCapture false t).notified = true := by
  refine ⟨rfl, ?_, ?_⟩ <;> cases t <;> rfl

/-- C5: an element flagged as appearing has, after the aging pass at clock
time `now₁`, opacity `min 1 ((now₁ - creationTime) / FADE_IN_DURATION)`;
the opacity is non-decreasing across later aging passes; when it reaches 1
the appearing flag is cleared; and aging is the identity on any element
whose appearing flag is clear (one-shot: the flag is never re-entered by
aging). -/
theorem c5_fade_in_monotone (e : WorldElement) (now1 now2 : ℚ)
    (hdyn : e.isDynamic = true) (happ : e.isAppearing = true)
    (_h0 : e.creationTime ≤ now1) (h12 : now1 ≤ now2) :
    (ageElement now1 e).opacity = min 1 ((now1 - e.creationTime) / FADE_IN_DURATION)
    ∧ (ageElement now1 e).opacity ≤ (ageElement now2 (ageElement now1 e)).opacity
    ∧ ((ageElement now1 e).opacity = 1 → (ageElement now1 e).isAppearing = false)
    ∧ (∀ (f : WorldElement) (t : ℚ), f.isAppearing = false → ageElement t f = f) := by
  have hdur : (0:ℚ) < FADE_IN_DURATION := by norm_num [FADE_IN_DURATION]
  refine ⟨?_, ?_, ?_, ?_⟩
  · exact ageElement_opacity now1 e hdyn happ
  · by_cases h1 : (1:ℚ) ≤ min 1 ((now1 - e.creationTime) / FADE_IN_DURATION)
    · have hstop : (ageElement now1 e).isAppearing = false := by
        simp [ageElement, hdyn, happ, h1]
      rw [ageElement_of_not_appearing now2 _ hstop]
    · have hkeep : (ageElement now1 e).isAppearing = true := by
        simp [ageElement, hdyn, happ, h1]
      have hdyn1 : (ageElement now1 e).isDynamic = true := by
        rw [ageElement_isDynamic]; exact hdyn
      rw [ageElement_opacity now2 _ hdyn1 hkeep, ageElement_opacity now1 e hdyn happ,
        ageElement_creationTime]
      exact min_le_min le_rfl
        ((div_le_div_iff_of_pos_right hdur).mpr (by linarith))
  · intro hop
    simp only [ageElement, hdyn, happ, Bool.and_self, if_true] at hop ⊢
    simp only [hop]
    norm_num
  · intro f t hf
    simp [ageElement, hf]

/-- C5 witness: a concrete appearing dynamic element aged at half the fade
duration has opacity `1/2`. -/
theorem c5_fade_in_monotone_witness :
    (⟨0, "w0", Geom.fallbackBox, 0, ⟨0,0,0⟩, 0, 10, 1/100, true, true, true, 0⟩ :
      WorldElement).isDynamic = true
    ∧ (⟨0, "w0", Geom.fallbackBox, 0, ⟨0,0,0⟩, 0, 10, 1/100, true, true, true, 0⟩ :
      WorldElement).isAppearing = true
    ∧ (⟨0, "w0", Geom.fallbackBox, 0, ⟨0,0,0⟩, 0, 10, 1/100, true, true, true, 0⟩ :
      WorldElement).creationTime ≤ 7/40
    ∧ ((7:ℚ)/40 ≤ 1)
    ∧ (ageElement (7/40)
        (⟨0, "w0", Geom.fallbackBox, 0, ⟨0,0,0⟩, 0, 10, 1/100, true, true, true, 0⟩ :
          WorldElement)).opacity
      = min 1 ((7/40 - 0) / FADE_IN_DURATION) := by
  refine ⟨rfl, rfl, by norm_num, by norm_num, ?_⟩
  exact (c5_fade_in_monotone _ (7/40) 1 rfl rfl (by norm_num) (by norm_num)).1

lemma Vec3.distSq_comm (a b : Vec3) : a.distSq b = b.distSq a := by
  unfold Vec3.distSq; ring

lemma applyOneCluster_cons (now : ℚ) (c : Vec3) (b : CityElementData)
    (bs : List CityElementData) (st : SceneState) :
    applyOneCluster now c (b :: bs) st
      = applyOneCluster now c bs
          { st with
              group := st.group ++ [createSegments (offsetByCenter c b) true now st.nextObjId]
              dyn := addDynId st.dyn (offsetByCenter c b).id
              nextObjId := st.nextObjId + 1 } := rfl

lemma applyOneCluster_bookkeeping (now : ℚ) (c : Vec3) (elems : List CityElementData)
    (st : SceneState) :
    (applyOneCluster now c elems st).pts = st.pts
    ∧ (applyOneCluster now c elems st).counter = st.counter
    ∧ (applyOneCluster now c elems st).inflight = st.inflight
    ∧ (applyOneCluster now c elems st).idCtr = st.idCtr := by
  induction elems generalizing st with
  | nil => exact ⟨rfl, rfl, rfl, rfl⟩
  | cons b bs ih =>
      rw [applyOneCluster_cons]
      exact ih _

lemma applySettled_bookkeeping (now : ℚ)
    (rs : List (Option (Vec3 × List CityElementData))) (st : SceneState) :
    (applySettled now rs st).pts = st.pts
    ∧ (applySettled now rs st).counter = st.counter
    ∧ (applySettled now rs st).inflight = st.inflight
    ∧ (applySettled now rs st).idCtr = st.idCtr := by
  induction rs generalizing st with
  | nil => exact ⟨rfl, rfl, rfl, rfl⟩
  | cons r rs ih =>
      cases r with
      | none => exact ih st
      | some p =>
          obtain ⟨c, elems⟩ := p
          obtain ⟨h1, h2, h3, h4⟩ := applyOneCluster_bookkeeping now c elems st
          obtain ⟨g1, g2, g3, g4⟩ := ih (applyOneCluster now c elems st)
          exact ⟨g1.trans h1, g2.trans h2, g3.trans h3, g4.trans h4⟩

lemma settleBatch_fields (now : ℚ) (b : ℕ)
    (results : List (Option (Vec3 × List CityElementData))) (st : SceneState) :
    (settleBatch now b results st).pts = st.pts
    ∧ (settleBatch now b results st).counter = st.counter - 1
    ∧ (settleBatch now b results st).inflight = st.inflight.erase b
    ∧ (settleBatch now b results st).idCtr = st.idCtr := by
  obtain ⟨h1, h2, h3, h4⟩ := applySettled_bookkeeping now results st
  exact ⟨h1, by simp [settleBatch, h2], by simp [settleBatch, h3], by simp [settleBatch, h4]⟩

lemma applyLandscape_pts (st : SceneState) (land : Option Landscape) :
    ((applyLandscape st land).1).pts = if st.dyn.isEmpty then st.pts else [] := by
  unfold applyLandscape
  cases land with
  | none => cases hd : st.dyn.isEmpty <;> simp [hd]
  | some L =>
      cases hd : st.dyn.isEmpty <;> cases hb : L.buildings.isEmpty <;> simp [hd, hb]

lemma applyLandscape_counter (st : SceneState) (land : Option Landscape) :
    ((applyLandscape st land).1).counter = if st.dyn.isEmpty then st.counter else 0 := by
  unfold applyLandscape
  cases land with
  | none => cases hd : st.dyn.isEmpty <;> simp [hd]
  | some L =>
      cases hd : st.dyn.isEmpty <;> cases hb : L.buildings.isEmpty <;> simp [hd, hb]

lemma applyLandscape_idCtr (st : SceneState) (land : Option Landscape) :
    ((applyLandscape st land).1).idCtr = if st.dyn.isEmpty then st.idCtr else 0 := by
  unfold applyLandscape
  cases land with
  | none => cases hd : st.dyn.isEmpty <;> simp [hd]
  | some L =>
      cases hd : st.dyn.isEmpty <;> cases hb : L.buildings.isEmpty <;> simp [hd, hb]

lemma applyLandscape_dyn (st : SceneState) (land : Option Landscape) :
    ((applyLandscape st land).1).dyn = if st.dyn.isEmpty then st.dyn else [] := by
  unfold applyLandscape
  cases land with
  | none => cases hd : st.dyn.isEmpty <;> simp [hd]
  | some L =>
      cases hd : st.dyn.isEmpty <;> cases hb : L.buildings.isEmpty <;> simp [hd, hb]

lemma applyLandscape_inflight (st : SceneState) (land : Option Landscape) :
    ((applyLandscape st land).1).inflight = st.inflight := by
  unfold applyLandscape
  cases land with
  | none => simp
  | some L => cases hb : L.buildings.isEmpty <;> simp [hb]

lemma trigger_init_c1s1 (safe : Bool) : Step safe initSceneState c1s1 := by
  have e : ({ initSceneState with
      counter := initSceneState.counter + 1
      pts := initSceneState.pts ++ [candidateCenter ⟨0, 0, -300⟩ ⟨0, 0, -1⟩]
      inflight := initSceneState.inflight ++ [initSceneState.idCtr]
      idCtr := initSceneState.idCtr + 1 } : SceneState) = c1s1 := by
    simp [initSceneState, candidateCenter, Vec3.addScaled, c1s1, CLUSTER_SPAWN_AHEAD_OFFSET]
    norm_num
  refine e ▸ Step.trigger initSceneState ⟨0, 0, -300⟩ ⟨0, 0, -1⟩ 1 ?_ ?_ ?_ ?_
  · norm_num [shouldTrigger, initSceneState, Vec3.lengthSq, GENERATION_TRIGGER_DISTANCE]
  · decide
  · norm_num
  · norm_num

lemma settle_ok_c1s1_c1s2 : Step false c1s1 c1s2 := by
  have e : settleBatch 1 0 [some (⟨0, 0, -900⟩, [elemA])] c1s1 = c1s2 := by
    simp [settleBatch, applySettled, applyOneCluster, addDynId, offsetByCenter, createSegments,
      buildGeom, truthyOpt, elemA, c1s1, c1s2, dynElemA, List.erase]
  exact e ▸ Step.settle c1s1 1 0 [some (⟨0, 0, -900⟩, [elemA])] (by decide)

lemma settle_fail_c1s1_c3Prior : Step false c1s1 c3Prior := by
  have e : settleBatch 1 0 [none] c1s1 = c3Prior := by
    simp [settleBatch, applySettled, c1s1, c3Prior, List.erase]
  exact e ▸ Step.settle c1s1 1 0 [none] (by decide)

lemma trigger_c1s2_c1s3 : Step false c1s2 c1s3 := by
  have e : ({ c1s2 with
      counter := c1s2.counter + 1
      pts := c1s2.pts ++ [candidateCenter ⟨0, 0, -900⟩ ⟨0, 0, -1⟩]
      inflight := c1s2.inflight ++ [c1s2.idCtr]
      idCtr := c1s2.idCtr + 1 } : SceneState) = c1s3 := by
    simp [c1s2, c1s3, candidateCenter, Vec3.addScaled, CLUSTER_SPAWN_AHEAD_OFFSET]
    norm_num
  refine e ▸ Step.trigger c1s2 ⟨0, 0, -900⟩ ⟨0, 0, -1⟩ 1 ?_ ?_ ?_ ?_
  · norm_num [shouldTrigger, c1s2, candidateCenter, Vec3.addScaled, Vec3.distSq,
      MIN_DISTANCE_BETWEEN_TRIGGER_POINTS, CLUSTER_SPAWN_AHEAD_OFFSET]
  · decide
  · norm_num
  · norm_num

lemma regen_c1s3_c1s4 : Step false c1s3 c1s4 := by
  have e : (applyLandscape c1s3 (some landB)).1 = c1s4 := by
    simp [applyLandscape, c1s3, c1s4, landB, elemB, processBuildings, updateFirstById,
      createSegments, buildGeom, truthyOpt, statElemB, dynElemA, offsetByCenter, elemA]
  exact e ▸ Step.regen c1s3 (some landB) (by decide)

lemma trigger_c1s4_c1Bad : Step false c1s4 c1BadState := by
  have e : ({ c1s4 with
      counter := c1s4.counter + 1
      pts := c1s4.pts ++ [candidateCenter ⟨0, 0, -900⟩ ⟨0, 0, -1⟩]
      inflight := c1s4.inflight ++ [c1s4.idCtr]
      idCtr := c1s4.idCtr + 1 } : SceneState) = c1BadState := by
    simp [c1s4, c1BadState, candidateCenter, Vec3.addScaled, CLUSTER_SPAWN_AHEAD_OFFSET]
    norm_num
  refine e ▸ Step.trigger c1s4 ⟨0, 0, -900⟩ ⟨0, 0, -1⟩ 1 ?_ ?_ ?_ ?_
  · norm_num [shouldTrigger, c1s4, Vec3.lengthSq, GENERATION_TRIGGER_DISTANCE]
  · decide
  · norm_num
  · norm_num

/-- C4: in every reachable state, any two trigger points recorded at
distinct positions of the list are at squared distance at least
`MIN_DISTANCE_BETWEEN_TRIGGER_POINTS²` — that is, at least 300 world units
apart (the decision procedure compares squared distances, and squared
distance is symmetric by `Vec3.distSq_comm`). -/
theorem c4_trigger_point_spacing (s : SceneState) (h : Reachable s) :
    s.pts.Pairwise (fun p q =>
      MIN_DISTANCE_BETWEEN_TRIGGER_POINTS * MIN_DISTANCE_BETWEEN_TRIGGER_POINTS
        ≤ p.distSq q) := by
  induction h with
  | refl => exact List.Pairwise.nil
  | @tail b c hab hbc ih =>
      cases hbc with
      | trigger pos fwd n htrig hcap hn1 hn5 =>
          refine List.pairwise_append.mpr ⟨ih, List.pairwise_singleton _ _, ?_⟩
          intro p hp q hq
          rw [List.mem_singleton] at hq
          subst hq
          by_cases hpe : b.pts.isEmpty
          · rw [List.isEmpty_iff] at hpe
            rw [hpe] at hp
            cases hp
          · unfold shouldTrigger at htrig
            rw [if_neg hpe] at htrig
            have h2 := List.all_eq_true.mp htrig p hp
            rw [Vec3.distSq_comm]
            exact of_decide_eq_true h2
      | settle now bb results hb =>
          rw [(settleBatch_fields now bb results b).1]
          exact ih
      | regen land hsafe =>
          rw [applyLandscape_pts]
          cases hd : b.dyn.isEmpty
          · simp only [Bool.false_eq_true, if_false]
            exact List.Pairwise.nil
          · simp only [if_true]
            exact ih

/-- C4 witness: the spacing invariant applied to the reachable state after
a successful first batch (one recorded trigger point). -/
theorem c4_trigger_point_spacing_witness :
    Reachable c1s2
    ∧ c1s2.pts.Pairwise (fun p q =>
        MIN_DISTANCE_BETWEEN_TRIGGER_POINTS * MIN_DISTANCE_BETWEEN_TRIGGER_POINTS
          ≤ p.distSq q) := by
  have hr : Reachable c1s2 :=
    Relation.ReflTransGen.tail (Relation.ReflTransGen.single (trigger_init_c1s1 false))
      settle_ok_c1s1_c1s2
  exact ⟨hr, c4_trigger_point_spacing c1s2 hr⟩

/-- C1 counterexample: the state `c1BadState`, in which two cluster
generation batches are simultaneously in flight, is reachable — a batch
was in flight when a full Landscape regeneration reset the in-flight
counter to zero, after which a new batch was issued while the old one had
still not settled.  This refutes the claim that the ≤ 1 bound holds in
every reachable state, including states reached after a full regeneration
occurs while a batch is still in flight. -/
theorem c1_counterexample :
    Reachable c1BadState ∧ c1BadState.inflight.length = 2 := by
  refine ⟨?_, rfl⟩
  exact Relation.ReflTransGen.tail
    (Relation.ReflTransGen.tail
      (Relation.ReflTransGen.tail
        (Relation.ReflTransGen.tail
          (Relation.ReflTransGen.single (trigger_init_c1s1 false))
          settle_ok_c1s1_c1s2)
        trigger_c1s2_c1s3)
      regen_c1s3_c1s4)
    trigger_c1s4_c1Bad

/-- C1 (amended): provided every full Landscape regeneration happens while
no batch is in flight, the bound holds in every reachable state: at most
one cluster-generation batch is in flight, and the in-flight counter
equals the number of in-flight batches (a new batch is issued only when
the counter is below 1, the counter is incremented before the requests are
issued, and it is decremented exactly once when all of the batch's
sub-cluster requests have settled). -/
theorem c1_amended_bound (s : SceneState) (h : SafeReachable s) :
    s.inflight.length ≤ 1 ∧ s.counter = s.inflight.length := by
  induction h with
  | refl => exact ⟨by norm_num [initSceneState], by norm_num [initSceneState]⟩
  | @tail b c hab hbc ih =>
      obtain ⟨ihlen, ihctr⟩ := ih
      cases hbc with
      | trigger pos fwd n htrig hcap hn1 hn5 =>
          have hcap1 : b.counter < 1 := hcap
          have hlen0 : b.inflight.length = 0 := by omega
          constructor
          · simp [List.length_append, hlen0]
          · simp [List.length_append, ihctr]
      | settle now bb results hb =>
          have hpos : 0 < b.inflight.length := List.length_pos_of_mem hb
          have hlen1 : b.inflight.length = 1 := by omega
          obtain ⟨f1, f2, f3, f4⟩ := settleBatch_fields now bb results b
          rw [f2, f3, List.length_erase_of_mem hb, hlen1, ihctr, hlen1]
          exact ⟨by norm_num, by norm_num⟩
      | regen land hsafe =>
          have hin : b.inflight = [] := hsafe rfl
          have hctr0 : b.counter = 0 := by rw [ihctr, hin]; rfl
          rw [applyLandscape_inflight, applyLandscape_counter, hin, hctr0]
          cases b.dyn.isEmpty <;> exact ⟨by norm_num, by norm_num⟩

/-- C1 amended witness: the bound evaluated at the reachable state with
one batch in flight. -/
theorem c1_amended_bound_witness :
    SafeReachable c1s1
    ∧ c1s1.inflight.length ≤ 1 ∧ c1s1.counter = c1s1.inflight.length := by
  have hr : SafeReachable c1s1 := Relation.ReflTransGen.single (trigger_init_c1s1 true)
  exact ⟨hr, c1_amended_bound c1s1 hr⟩

/-- C3 counterexample: `c3Prior` is a reachable prior state (a batch was
triggered and every sub-cluster request failed, so a trigger point and a
non-zero cluster-id counter exist while the dynamic-id set is empty).
When a new Landscape arrives in that state, the effect does NOT reset the
TriggerPoint list to empty and does NOT reset the cluster-id counter to
zero, because the whole reset block is guarded by the dynamic-id set being
non-empty. -/
theorem c3_counterexample :
    Reachable c3Prior
    ∧ c3Prior.pts ≠ []
    ∧ c3Prior.idCtr = 1
    ∧ (applyLandscape c3Prior (some landB)).1.pts = c3Prior.pts
    ∧ (applyLandscape c3Prior (some landB)).1.idCtr = 1 := by
  refine ⟨?_, by simp [c3Prior], rfl, ?_, ?_⟩
  · exact Relation.ReflTransGen.tail
      (Relation.ReflTransGen.single (trigger_init_c1s1 false)) settle_fail_c1s1_c3Prior
  · rw [applyLandscape_pts]; rfl
  · rw [applyLandscape_idCtr]; rfl

lemma reconcileUpdateElement_objId (b : CityElementData) (e : WorldElement) :
    (reconcileUpdateElement b e).objId = e.objId := rfl

lemma reconcileUpdateElement_id (b : CityElementData) (e : WorldElement) :
    (reconcileUpdateElement b e).id = e.id := rfl

lemma updateFirstById_mem (b : CityElementData) (g g2 : List WorldElement)
    (h : updateFirstById b g = some g2) :
    ∀ e2 ∈ g2, ∃ e ∈ g, e2.objId = e.objId ∧ e2.id = e.id := by
  induction g generalizing g2 with
  | nil => cases h
  | cons e0 rest ih =>
      unfold updateFirstById at h
      by_cases heq : e0.id = b.id
      · rw [if_pos heq] at h
        injection h with h
        subst h
        intro e2 h2
        rcases List.mem_cons.mp h2 with h3 | h3
        · exact ⟨e0, List.mem_cons_self _ _,
            by rw [h3, reconcileUpdateElement_objId],
            by rw [h3, reconcileUpdateElement_id]⟩
        · exact ⟨e2, List.mem_cons_of_mem _ h3, rfl, rfl⟩
      · rw [if_neg heq] at h
        cases hr : updateFirstById b rest with
        | some r2 =>
            rw [hr] at h
            injection h with h
            subst h
            intro e2 h2
            rcases List.mem_cons.mp h2 with h3 | h3
            · exact ⟨e0, List.mem_cons_self _ _, by rw [h3], by rw [h3]⟩
            · obtain ⟨e, he, h4, h5⟩ := ih r2 hr e2 h3
              exact ⟨e, List.mem_cons_of_mem _ he, h4, h5⟩
        | none => rw [hr] at h; cases h

lemma createSegments_objId (e : CityElementData) (dynFade : Bool) (now : ℚ) (objId : ℕ) :
    (createSegments e dynFade now objId).objId = objId := rfl

lemma processBuildings_mem (dyn : List String) (bs : List CityElementData)
    (g : List WorldElement) (nid u a : ℕ) :
    ∀ e2 ∈ (processBuildings dyn bs g nid u a).1,
      (∃ e ∈ g, e2.objId = e.objId ∧ e2.id = e.id) ∨ nid ≤ e2.objId := by
  induction bs generalizing g nid u a with
  | nil =>
      intro e2 h2
      exact Or.inl ⟨e2, h2, rfl, rfl⟩
  | cons b bs ih =>
      intro e2 h2
      unfold processBuildings at h2
      by_cases hbd : b.id ∈ dyn
      · rw [if_pos hbd] at h2
        exact ih g nid u a e2 h2
      · rw [if_neg hbd] at h2
        cases hu : updateFirstById b g with
        | some g2 =>
            rw [hu] at h2
            rcases ih g2 nid (u + 1) a e2 h2 with ⟨e, he, h3, h4⟩ | h5
            · obtain ⟨e0, he0, h6, h7⟩ := updateFirstById_mem b g g2 hu e he
              exact Or.inl ⟨e0, he0, h3.trans h6, h4.trans h7⟩
            · exact Or.inr h5
        | none =>
            rw [hu] at h2
            rcases ih (g ++ [createSegments b false 0 nid]) (nid + 1) u (a + 1) e2 h2 with
              ⟨e, he, h3, h4⟩ | h5
            · rcases List.mem_append.mp he with h6 | h6
              · exact Or.inl ⟨e, h6, h3, h4⟩
              · rw [List.mem_singleton] at h6
                subst h6
                rw [createSegments_objId] at h3
                exact Or.inr (le_of_eq h3.symm)
            · exact Or.inr (le_trans (Nat.le_succ nid) h5)

lemma applyLandscape_group_cases (st : SceneState) (land : Option Landscape)
    (hde : st.dyn.isEmpty = false) :
    (applyLandscape st land).1.group = []
    ∨ ∃ L, land = some L
        ∧ (applyLandscape st land).1.group
          = ((processBuildings [] L.buildings
              (st.group.filter (fun e => decide (e.id ∉ st.dyn))) st.nextObjId 0 0).1).filter
              (fun e => e.isDynamic || decide (e.id ∈ L.buildings.map (fun b => b.id))) := by
  cases land with
  | none => left; simp [applyLandscape, hde]
  | some L =>
      cases hb : L.buildings.isEmpty with
      | true => left; simp [applyLandscape, hde, hb]
      | false =>
          right
          exact ⟨L, rfl, by simp [applyLandscape, hde, hb]⟩

/-- C3 (amended): the resets happen exactly when the dynamic-id set is
non-empty.  If at least one dynamically streamed element exists when a new
Landscape arrives, then the effect resets the TriggerPoint list to empty,
resets the in-flight counter and the cluster-id counter to zero, clears
the dynamic-id set, and every dynamically streamed WorldElement (a group
child whose id is in the dynamic-id set) is removed from the city group —
no object of the resulting group is that element.  (`hfresh`/`hinj` state
that JS object identities in the group are distinct and were allocated
before the fresh-identity supply, which holds of every state the component
actually builds.) -/
theorem c3_amended_regen_resets (st : SceneState) (land : Option Landscape)
    (hdyn : st.dyn ≠ [])
    (hfresh : ∀ e ∈ st.group, e.objId < st.nextObjId)
    (hinj : ∀ e1 ∈ st.group, ∀ e2 ∈ st.group, e1.objId = e2.objId → e1 = e2) :
    (applyLandscape st land).1.pts = []
    ∧ (applyLandscape st land).1.counter = 0
    ∧ (applyLandscape st land).1.idCtr = 0
    ∧ (applyLandscape st land).1.dyn = []
    ∧ ∀ eOld ∈ st.group, eOld.id ∈ st.dyn →
        ∀ e2 ∈ (applyLandscape st land).1.group, e2.objId ≠ eOld.objId := by
  have hde : st.dyn.isEmpty = false := by
    cases h : st.dyn with
    | nil => exact absurd h hdyn
    | cons a l => rfl
  refine ⟨?_, ?_, ?_, ?_, ?_⟩
  · rw [applyLandscape_pts, hde]; rfl
  · rw [applyLandscape_counter, hde]; rfl
  · rw [applyLandscape_idCtr, hde]; rfl
  · rw [applyLandscape_dyn, hde]; rfl
  · intro eOld hOld hOldDyn e2 he2 heq
    rcases applyLandscape_group_cases st land hde with hg | ⟨L, hl, hg⟩
    · rw [hg] at he2
      cases he2
    · rw [hg] at he2
      have he2a := (List.mem_filter.mp he2).1
      rcases processBuildings_mem [] L.buildings
          (st.group.filter (fun e => decide (e.id ∉ st.dyn))) st.nextObjId 0 0 e2 he2a with
        ⟨e, he, h3, h4⟩ | h5
      · obtain ⟨heg, hene⟩ := List.mem_filter.mp he
        have hnotdyn : e.id ∉ st.dyn := of_decide_eq_true hene
        have : e = eOld := hinj e heg eOld hOld (h3.symm.trans heq)
        rw [this] at hnotdyn
        exact hnotdyn hOldDyn
      · have := hfresh eOld hOld
        omega

/-- C3 amended witness: in the reachable state `c1s3` (one dynamic
element, one batch in flight) the arrival of a new Landscape resets the
trigger points and the cluster-id counter. -/
theorem c3_amended_regen_resets_witness :
    c1s3.dyn ≠ []
    ∧ (∀ e ∈ c1s3.group, e.objId < c1s3.nextObjId)
    ∧ (applyLandscape c1s3 (some landB)).1.pts = []
    ∧ (applyLandscape c1s3 (some landB)).1.idCtr = 0 := by
  have hdyn : c1s3.dyn ≠ [] := by simp [c1s3]
  have hfresh : ∀ e ∈ c1s3.group, e.objId < c1s3.nextObjId := by
    intro e he
    rw [List.mem_singleton.mp he]
    exact Nat.zero_lt_one
  have hinj : ∀ e1 ∈ c1s3.group, ∀ e2 ∈ c1s3.group, e1.objId = e2.objId → e1 = e2 := by
    intro e1 h1 e2 h2 _
    rw [List.mem_singleton.mp h1, List.mem_singleton.mp h2]
  obtain ⟨p1, p2, p3, p4, p5⟩ := c3_amended_regen_resets c1s3 (some landB) hdyn hfresh hinj
  exact ⟨hdyn, hfresh, p1, p3⟩

/-- C2 counterexample: merge the one-building landscape `landB`, then
merge the identical landscape again.  The single element's id persists,
the element is updated in place (same id, no removal), and yet the
reconcile run performs one geometry disposal on it and its attached
geometry is rebuilt (`geomVersion` goes from 0 to 1) — not the zero
disposals the claim asserts. -/
theorem c2_counterexample :
    c2First.group.map (fun e => e.geomVersion) = [0]
    ∧ (applyLandscape c2First (some landB)).2.geomDisposals = 1
    ∧ (applyLandscape c2First (some landB)).1.group.map (fun e => e.geomVersion) = [1]
    ∧ (applyLandscape c2First (some landB)).1.group.map (fun e => e.id)
        = c2First.group.map (fun e => e.id) := by
  refine ⟨?_, ?_, ?_, ?_⟩ <;>
    simp [c2First, applyLandscape, landB, elemB, initSceneState, processBuildings,
      updateFirstById, createSegments, buildGeom, truthyOpt, reconcileUpdateElement,
      updateSegments]

lemma updateFirstById_found (b : CityElementData) (g : List WorldElement)
    (hmem : b.id ∈ g.map (fun e => e.id)) :
    ∃ g2, updateFirstById b g = some g2
      ∧ g2.map (fun e => e.objId) = g.map (fun e => e.objId)
      ∧ g2.map (fun e => e.id) = g.map (fun e => e.id) := by
  induction g with
  | nil => simp at hmem
  | cons e0 rest ih =>
      by_cases heq : e0.id = b.id
      · refine ⟨reconcileUpdateElement b e0 :: rest, ?_, ?_, ?_⟩
        · unfold updateFirstById
          rw [if_pos heq]
        · simp [reconcileUpdateElement_objId]
        · simp [reconcileUpdateElement_id]
      · have hmem2 : b.id ∈ rest.map (fun e => e.id) := by
          rw [List.map_cons, List.mem_cons] at hmem
          rcases hmem with h | h
          · exact (heq h.symm).elim
          · exact h
        obtain ⟨g2, hg2, hobj, hid⟩ := ih hmem2
        refine ⟨e0 :: g2, ?_, ?_, ?_⟩
        · unfold updateFirstById
          rw [if_neg heq, hg2]
        · simp [hobj]
        · simp [hid]

lemma processBuildings_inplace (bs : List CityElementData) (g : List WorldElement)
    (nid u a : ℕ) (hall : ∀ b ∈ bs, b.id ∈ g.map (fun e => e.id)) :
    (processBuildings [] bs g nid u a).1.map (fun e => e.objId) = g.map (fun e => e.objId)
    ∧ (processBuildings [] bs g nid u a).1.map (fun e => e.id) = g.map (fun e => e.id)
    ∧ (processBuildings [] bs g nid u a).2.1 = nid
    ∧ (processBuildings [] bs g nid u a).2.2.1 = u + bs.length
    ∧ (processBuildings [] bs g nid u a).2.2.2 = a := by
  induction bs generalizing g u with
  | nil => exact ⟨rfl, rfl, rfl, rfl, rfl⟩
  | cons b bs ih =>
      have hb : b.id ∈ g.map (fun e => e.id) := hall b (List.mem_cons_self _ _)
      obtain ⟨g2, hg2, hobj, hid⟩ := updateFirstById_found b g hb
      have step : processBuildings [] (b :: bs) g nid u a
          = processBuildings [] bs g2 nid (u + 1) a := by
        conv_lhs => unfold processBuildings
        rw [if_neg (List.not_mem_nil b.id), hg2]
      rw [step]
      have hall2 : ∀ b2 ∈ bs, b2.id ∈ g2.map (fun e => e.id) := by
        intro b2 hb2
        rw [hid]
        exact hall b2 (List.mem_cons_of_mem _ hb2)
      obtain ⟨o1, o2, o3, o4, o5⟩ := ih g2 (u + 1) hall2
      refine ⟨o1.trans hobj, o2.trans hid, o3, ?_, o5⟩
      rw [o4]
      simp [List.length_cons]
      omega

/-- C2 (amended): merging a Landscape and then merging an identical
Landscape again produces zero net element disposals and creations for
unchanged elements: for every element whose id persists, the reconcile
operation updates the WorldElement in place — the same objects, in the
same order, remain in the city group (no element is removed, none is
added) — while the update path disposes each element's old geometry and
attaches a newly built one, so geometry disposals and creations balance
exactly. -/
theorem c2_amended_element_reuse (L : Landscape) (st1 : SceneState)
    (hdyn : st1.dyn = [])
    (hids : st1.group.map (fun e => e.id) = L.buildings.map (fun b => b.id))
    (hne : L.buildings ≠ []) :
    (applyLandscape st1 (some L)).1.group.map (fun e => e.objId)
      = st1.group.map (fun e => e.objId)
    ∧ (applyLandscape st1 (some L)).1.group.map (fun e => e.id)
        = st1.group.map (fun e => e.id)
    ∧ (applyLandscape st1 (some L)).2.elemsRemoved = 0
    ∧ (applyLandscape st1 (some L)).2.elemsAdded = 0
    ∧ (applyLandscape st1 (some L)).2.geomDisposals
        = (applyLandscape st1 (some L)).2.geomCreations := by
  have hde : st1.dyn.isEmpty = true := by rw [hdyn]; rfl
  have hbe : L.buildings.isEmpty = false := by
    cases h : L.buildings with
    | nil => exact absurd h hne
    | cons a l => rfl
  have hall : ∀ b ∈ L.buildings, b.id ∈ st1.group.map (fun e => e.id) := by
    intro b hb
    rw [hids]
    exact List.mem_map_of_mem _ hb
  obtain ⟨o1, o2, o3, o4, o5⟩ :=
    processBuildings_inplace L.buildings st1.group st1.nextObjId 0 0 hall
  have hfilter :
      ((processBuildings [] L.buildings st1.group st1.nextObjId 0 0).1).filter
        (fun e => e.isDynamic || decide (e.id ∈ L.buildings.map (fun b => b.id)))
      = (processBuildings [] L.buildings st1.group st1.nextObjId 0 0).1 := by
    apply List.filter_eq_self.mpr
    intro e he
    have h1 : e.id ∈ (processBuildings [] L.buildings st1.group st1.nextObjId 0 0).1.map
        (fun e => e.id) := List.mem_map_of_mem _ he
    rw [o2, hids] at h1
    simp [h1]
  refine ⟨?_, ?_, ?_, ?_, ?_⟩
  · simp only [applyLandscape, hde, hbe, Bool.not_true, Bool.false_eq_true, if_false, hdyn,
      List.isEmpty_nil]
    rw [hfilter, o1]
  · simp only [applyLandscape, hde, hbe, Bool.not_true, Bool.false_eq_true, if_false, hdyn,
      List.isEmpty_nil]
    rw [hfilter, o2]
  · simp only [applyLandscape, hde, hbe, Bool.not_true, Bool.false_eq_true, if_false, hdyn,
      List.isEmpty_nil]
    rw [hfilter]
    omega
  · simp only [applyLandscape, hde, hbe, Bool.not_true, Bool.false_eq_true, if_false, hdyn,
      List.isEmpty_nil]
    exact o5
  · simp only [applyLandscape, hde, hbe, Bool.not_true, Bool.false_eq_true, if_false, hdyn,
      List.isEmpty_nil]
    rw [hfilter, o4, o5]
    omega

/-- C2 amended witness: the identical second merge of `landB` keeps the
same single object (same id, same object identity), removes nothing and
adds nothing. -/
theorem c2_amended_element_reuse_witness :
    c2First.dyn = []
    ∧ c2First.group.map (fun e => e.id) = landB.buildings.map (fun b => b.id)
    ∧ landB.buildings ≠ []
    ∧ (applyLandscape c2First (some landB)).1.group.map (fun e => e.objId)
        = c2First.group.map (fun e => e.objId)
    ∧ (applyLandscape c2First (some landB)).2.elemsRemoved = 0 := by
  have h1 : c2First.dyn = [] := by
    simp [c2First, applyLandscape, initSceneState, landB, elemB, processBuildings,
      updateFirstById, createSegments, buildGeom, truthyOpt]
  have h2 : c2First.group.map (fun e => e.id) = landB.buildings.map (fun b => b.id) := by
    simp [c2First, applyLandscape, initSceneState, landB, elemB, processBuildings,
      updateFirstById, createSegments, buildGeom, truthyOpt]
  have h3 : landB.buildings ≠ [] := by simp [landB]
  obtain ⟨p1, p2, p3, p4, p5⟩ := c2_amended_element_reuse landB c2First h1 h2 h3
  exact ⟨h1, h2, h3, p1, p3⟩

lemma newDynElems_length (now : ℚ) (c : Vec3) (nid : ℕ) (elems : List CityElementData) :
    (newDynElems now c nid elems).length = elems.length := by
  induction elems generalizing nid with
  | nil => rfl
  | cons b bs ih => simp [newDynElems, ih]

lemma applyOneCluster_group (now : ℚ) (c : Vec3) (elems : List CityElementData)
    (st : SceneState) :
    (applyOneCluster now c elems st).group
      = st.group ++ newDynElems now c st.nextObjId elems := by
  induction elems generalizing st with
  | nil => simp [applyOneCluster, newDynElems]
  | cons b bs ih =>
      rw [applyOneCluster_cons, ih]
      simp [newDynElems, List.append_assoc]

lemma mem_addDynId_self (dyn : List String) (i : String) : i ∈ addDynId dyn i := by
  by_cases h : i ∈ dyn <;> simp [addDynId, h]

lemma mem_addDynId_of_mem (dyn : List String) (i j : String) (h : j ∈ dyn) :
    j ∈ addDynId dyn i := by
  by_cases hi : i ∈ dyn <;> simp [addDynId, hi, h]

lemma applyOneCluster_dyn_mono (now : ℚ) (c : Vec3) (elems : List CityElementData)
    (st : SceneState) (j : String) (hj : j ∈ st.dyn) :
    j ∈ (applyOneCluster now c elems st).dyn := by
  induction elems generalizing st with
  | nil => exact hj
  | cons b bs ih =>
      rw [applyOneCluster_cons]
      exact ih _ (mem_addDynId_of_mem _ _ _ hj)

lemma applyOneCluster_dyn_mem (now : ℚ) (c : Vec3) (elems : List CityElementData)
    (st : SceneState) (b : CityElementData) (hb : b ∈ elems) :
    b.id ∈ (applyOneCluster now c elems st).dyn := by
  induction elems generalizing st with
  | nil => cases hb
  | cons b0 bs ih =>
      rw [applyOneCluster_cons]
      rcases List.mem_cons.mp hb with h | h
      · subst h
        exact applyOneCluster_dyn_mono now c bs _ _ (mem_addDynId_self st.dyn b.id)
      · exact ih _ h

lemma newDynElems_props (now : ℚ) (c : Vec3) (nid : ℕ) (elems : List CityElementData) :
    ∀ w ∈ newDynElems now c nid elems,
      ∃ b ∈ elems,
        w.id = b.id
        ∧ w.pos = ⟨b.position.x + c.x, b.position.y + b.dimensions.height / 2,
            b.position.z + c.z⟩
        ∧ w.isAppearing = true ∧ w.isDynamic = true
        ∧ w.opacity = 1 / 100 ∧ w.transparent = true ∧ w.creationTime = now := by
  induction elems generalizing nid with
  | nil => intro w hw; cases hw
  | cons b bs ih =>
      intro w hw
      rcases List.mem_cons.mp hw with h | h
      · subst h
        exact ⟨b, List.mem_cons_self _ _, rfl, rfl, rfl, rfl, rfl, rfl, rfl⟩
      · obtain ⟨b2, hb2, props⟩ := ih (nid + 1) w h
        exact ⟨b2, List.mem_cons_of_mem _ hb2, props⟩

/-- C9: when a sub-cluster request targeted at world center `(100,0,200)`
settles successfully with 6 elements, exactly 6 new WorldElements are
appended to the city group (the existing children untouched); each new
element has fade-in enabled (appearing, transparent, opacity `0.01`,
creation time stamped from the clock), its id recorded in the dynamic-id
set, and its position offset by `(100,0,200)` relative to the element's
original cluster-local coordinates (the vertical component additionally
carries the ground-plane placement `y + height/2` that every element
receives, with `y` itself offset by the center's zero `y` component). -/
theorem c9_cluster_result_applied (st : SceneState) (elems : List CityElementData) (now : ℚ)
    (h6 : elems.length = 6) :
    ((applyOneCluster now ⟨100, 0, 200⟩ elems st).group).length = st.group.length + 6
    ∧ (applyOneCluster now ⟨100, 0, 200⟩ elems st).group
        = st.group ++ newDynElems now ⟨100, 0, 200⟩ st.nextObjId elems
    ∧ (∀ w ∈ newDynElems now ⟨100, 0, 200⟩ st.nextObjId elems,
        ∃ b ∈ elems,
          w.id = b.id
          ∧ w.pos = ⟨b.position.x + 100, b.position.y + b.dimensions.height / 2,
              b.position.z + 200⟩
          ∧ w.isAppearing = true ∧ w.isDynamic = true
          ∧ w.opacity = 1 / 100 ∧ w.transparent = true ∧ w.creationTime = now)
    ∧ (∀ b ∈ elems, b.id ∈ (applyOneCluster now ⟨100, 0, 200⟩ elems st).dyn) := by
  refine ⟨?_, applyOneCluster_group now _ elems st, ?_, ?_⟩
  · rw [applyOneCluster_group, List.length_append, newDynElems_length, h6]
  · exact newDynElems_props now ⟨100, 0, 200⟩ st.nextObjId elems
  · intro b hb
    exact applyOneCluster_dyn_mem now ⟨100, 0, 200⟩ elems st b hb

/-- C9 witness: six copies of a concrete valid element merged into the
mount state yield a city group of six elements. -/
theorem c9_cluster_result_applied_witness :
    (List.replicate 6 elemA).length = 6
    ∧ ((applyOneCluster 2 ⟨100, 0, 200⟩ (List.replicate 6 elemA) initSceneState).group).length
        = initSceneState.group.length + 6 := by
  refine ⟨by simp, ?_⟩
  exact (c9_cluster_result_applied initSceneState (List.replicate 6 elemA) 2 (by simp)).1

lemma isStrField_iff (v : JValue) (k : String) :
    isStrField v k = true ↔ ∃ s, getField v k = some (.jstr s) := by
  unfold isStrField
  cases h : getField v k with
  | none => simp
  | some j => cases j <;> simp

lemma truthyJ_of_getField (sky : JValue) (k : String) (x : JValue)
    (h : getField sky k = some x) : truthyJ sky = true := by
  cases sky with
  | jobj fields => rfl
  | jnull => simp [getField] at h
  | jbool b => simp [getField] at h
  | jnum q => simp [getField] at h
  | jstr s => simp [getField] at h
  | jarr xs => simp [getField] at h

lemma landscapeAccept_iff (v : JValue) :
    landscapeAccept v = true ↔ LandscapeWellFormed v := by
  unfold landscapeAccept LandscapeWellFormed
  constructor
  · intro h
    rw [Bool.and_eq_true] at h
    obtain ⟨h1, h2⟩ := h
    cases hs : getField v "sky" with
    | none => rw [hs] at h1; cases h1
    | some sky =>
        rw [hs] at h1
        rw [Bool.and_eq_true, Bool.and_eq_true] at h1
        obtain ⟨⟨ht, h1a⟩, h1b⟩ := h1
        obtain ⟨t, htc⟩ := (isStrField_iff sky "topColor").mp h1a
        obtain ⟨hz, hhc⟩ := (isStrField_iff sky "horizonColor").mp h1b
        cases hbv : getField v "buildings" with
        | none => rw [hbv] at h2; cases h2
        | some bv =>
            rw [hbv] at h2
            cases bv with
            | jarr bs =>
                rw [Bool.and_eq_true, Bool.and_eq_true] at h2
                obtain ⟨⟨hlo, hhi⟩, hall⟩ := h2
                refine ⟨sky, bs, rfl, ⟨t, htc⟩, ⟨hz, hhc⟩, rfl,
                  of_decide_eq_true hlo, of_decide_eq_true hhi, ?_⟩
                intro b hb
                exact List.all_eq_true.mp hall b hb
            | jnull => cases h2
            | jbool b => cases h2
            | jnum q => cases h2
            | jstr s => cases h2
            | jobj fields => cases h2
  · rintro ⟨sky, bs, hs, ⟨t, htc⟩, ⟨hz, hhc⟩, hbv, hlo, hhi, hall⟩
    rw [Bool.and_eq_true]
    constructor
    · rw [hs, Bool.and_eq_true, Bool.and_eq_true]
      exact ⟨⟨truthyJ_of_getField sky "topColor" _ htc,
        (isStrField_iff _ _).mpr ⟨t, htc⟩⟩, (isStrField_iff _ _).mpr ⟨hz, hhc⟩⟩
    · rw [hbv, Bool.and_eq_true, Bool.and_eq_true]
      exact ⟨⟨decide_eq_true hlo, decide_eq_true hhi⟩, List.all_eq_true.mpr hall⟩

/-- C7: a `requestLandscape` result is accepted — parsed data stored in
`landscapeData` and no error — exactly when it carries a `sky` with two
color strings and a `buildings` array of 25–50 elements all passing
`isValidBuildingElement`; every other outcome (including a response that
is not parseable JSON, modelled by `none`) sets `landscapeData` to `null`
and raises the user-visible error, applying nothing.  A `requestCluster`
result is accepted exactly when it is an array of 5–8 elements all passing
validation; any element failing validation rejects the whole array
(`null`), and a non-parsing response yields `null`. -/
theorem c7_validation :
    (∀ v : JValue, generateNewLandscape (some v) = (some v, false) ↔ LandscapeWellFormed v)
    ∧ (∀ v : JValue, ¬ LandscapeWellFormed v → generateNewLandscape (some v) = (none, true))
    ∧ generateNewLandscape none = (none, true)
    ∧ (∀ (v : JValue) (pre : String),
        (∃ out, generateBuildingCluster (some v) pre = some out) ↔ ClusterWellFormed v)
    ∧ (∀ (bs : List JValue) (pre : String) (b : JValue), b ∈ bs →
        isValidBuildingElement b = false →
        generateBuildingCluster (some (.jarr bs)) pre = none)
    ∧ (∀ pre : String, generateBuildingCluster none pre = none) := by
  refine ⟨?_, ?_, rfl, ?_, ?_, fun _ => rfl⟩
  · intro v
    constructor
    · intro he
      by_cases h : landscapeAccept v = true
      · exact (landscapeAccept_iff v).mp h
      · simp only [generateNewLandscape] at he
        rw [if_neg h] at he
        simp at he
    · intro hwf
      have h := (landscapeAccept_iff v).mpr hwf
      simp [generateNewLandscape, h]
  · intro v hwf
    have h : ¬ landscapeAccept v = true := fun h => hwf ((landscapeAccept_iff v).mp h)
    simp only [generateNewLandscape]
    rw [if_neg h]
  · intro v pre
    constructor
    · intro ⟨out, hout⟩
      cases v with
      | jarr bs =>
          simp only [generateBuildingCluster] at hout
          by_cases hc : (decide (5 ≤ bs.length) && decide (bs.length ≤ 8)
              && bs.all isValidBuildingElement) = true
          · rw [Bool.and_eq_true, Bool.and_eq_true] at hc
            obtain ⟨⟨h5, h8⟩, hall⟩ := hc
            exact ⟨bs, rfl, of_decide_eq_true h5, of_decide_eq_true h8,
              fun b hb => List.all_eq_true.mp hall b hb⟩
          · rw [if_neg hc] at hout
            cases hout
      | jnull => cases hout
      | jbool b => cases hout
      | jnum q => cases hout
      | jstr s => cases hout
      | jobj fields => cases hout
    · rintro ⟨bs, rfl, h5, h8, hall⟩
      refine ⟨bs.map (overrideId pre), ?_⟩
      have hcond : (decide (5 ≤ bs.length) && decide (bs.length ≤ 8)
          && bs.all isValidBuildingElement) = true := by
        rw [Bool.and_eq_true, Bool.and_eq_true]
        exact ⟨⟨decide_eq_true h5, decide_eq_true h8⟩, List.all_eq_true.mpr hall⟩
      simp only [generateBuildingCluster]
      rw [if_pos hcond]
  · intro bs pre b hb hvb
    have hall : bs.all isValidBuildingElement = false := by
      cases h : bs.all isValidBuildingElement with
      | false => rfl
      | true =>
          have := List.all_eq_true.mp h b hb
          rw [hvb] at this
          cases this
    have hcond : ¬ (decide (5 ≤ bs.length) && decide (bs.length ≤ 8)
        && bs.all isValidBuildingElement) = true := by
      rw [hall, Bool.and_false]
      simp
    simp only [generateBuildingCluster]
    rw [if_neg hcond]

/-- C7 witness: a concrete well-formed 25-building landscape response is
accepted and stored; a non-parsing response yields the error state with
`landscapeData` null; a cluster response with one invalid element among
five is rejected as a whole. -/
theorem c7_validation_witness :
    generateNewLandscape (some goodLandscapeJson) = (some goodLandscapeJson, false)
    ∧ generateNewLandscape none = (none, true)
    ∧ generateBuildingCluster (some (.jarr (JValue.jnull :: List.replicate 4 bJson))) "dyn_c0_"
        = none := by
  refine ⟨?_, c7_validation.2.2.1, ?_⟩
  · apply (c7_validation.1 goodLandscapeJson).mpr
    refine ⟨.jobj [("topColor", .jstr "#2c003e"), ("horizonColor", .jstr "#ff00cc")],
      List.replicate 25 bJson, rfl, ⟨"#2c003e", rfl⟩, ⟨"#ff00cc", rfl⟩, rfl, ?_, ?_, ?_⟩
    · simp
    · simp
    · intro b hb
      rw [List.eq_of_mem_replicate hb]
      rfl
  · exact c7_validation.2.2.2.2.1 (JValue.jnull :: List.replicate 4 bJson) "dyn_c0_"
      JValue.jnull (List.mem_cons_self _ _) rfl
